import Mathlib

/-
  Verification of the kiko real-time session synchronization subsystem.

  The definitions below are a shallow embedding of the Rust sources:
  `crates/kiko/src/data.rs` (Session aggregate and its operations),
  `crates/kiko-backend/src/messaging.rs` (PubSub hub),
  `crates/kiko-backend/src/services/sessions.rs` (in-memory session store),
  `crates/kiko-backend/src/handlers/v1/websocket.rs` (per-connection
  protocol handlers).  Hash maps (`HashMap`, `DashMap`) are modelled as
  association lists with insert-or-replace semantics; ids are strings;
  `Duration` is its whole-second count; asynchronous mutation of `&mut`
  state is modelled by explicit state passing.
-/

namespace Kiko

/-- Association-list lookup keyed by strings; models map lookup on
`HashMap`/`DashMap` (keys are unique in the real maps, and the first
binding wins here). -/
def alookup {α : Type} (k : String) : List (String × α) → Option α
  | [] => none
  | (k1, v) :: rest => if k1 = k then some v else alookup k rest

/-- Remove every binding for key `k`; models `HashMap::remove` on a map
with unique keys. -/
def aremove {α : Type} (k : String) : List (String × α) → List (String × α)
  | [] => []
  | (k1, v) :: rest => if k1 = k then aremove k rest else (k1, v) :: aremove k rest

/-- Insert-or-replace a binding; models `HashMap::insert`. -/
def ainsert {α : Type} (k : String) (v : α) (m : List (String × α)) : List (String × α) :=
  (k, v) :: aremove k m

/-- `data.rs` `Participant`: a generated id and a display name. -/
structure Participant where
  id : String
  name : String
deriving DecidableEq

/-- `data.rs` `Session`: the aggregate root.  `started` and `duration`
are second counts, `current_points` maps participant ids to an optional
point value. -/
structure Session where
  id : String
  name : String
  started : Nat
  duration : Nat
  members : List Participant
  current_topic : String
  current_points : List (String × Option Nat)
  hide_points : Bool
deriving DecidableEq

/-- `Session::add_participant`: `self.members.push(participant)`. -/
def Session.add_participant (s : Session) (p : Participant) : Session :=
  { s with members := s.members ++ [p] }

/-- `Session::remove_participant`: `self.members.retain(|p| &p.id != participant_id)`. -/
def Session.remove_participant (s : Session) (pid : String) : Session :=
  { s with members := s.members.filter (fun p => p.id ≠ pid) }

/-- `Session::set_topic`. -/
def Session.set_topic (s : Session) (topic : String) : Session :=
  { s with current_topic := topic }

/-- `Session::clear_points`: `self.current_points.clear()`. -/
def Session.clear_points (s : Session) : Session :=
  { s with current_points := [] }

/-- `Session::toggle_hide_points`: `self.hide_points = !self.hide_points`. -/
def Session.toggle_hide_points (s : Session) : Session :=
  { s with hide_points := !s.hide_points }

/-- `Session::point`: validates that the participant id is a current
member (`self.members.iter().any(|p| &p.id == participant_id)`); on an
unknown id it logs and returns without touching the map, otherwise it
inserts the points under that id. -/
def Session.point (s : Session) (pid : String) (pts : Option Nat) : Session :=
  if ∃ p ∈ s.members, p.id = pid then
    { s with current_points := ainsert pid pts s.current_points }
  else s

/-- The spec's session invariant: every key of the point map is the id
of a participant currently in the member list. -/
def pointsOk (s : Session) : Prop :=
  ∀ k ∈ s.current_points.map Prod.fst, ∃ p ∈ s.members, p.id = k

instance (s : Session) : Decidable (pointsOk s) := by
  unfold pointsOk
  infer_instance

/-- `data.rs` `SessionMessage`: the WebSocket protocol tagged union. -/
inductive SessionMessage where
  | CreateSession (name : String) (duration : Nat)
  | JoinSession (session_id : String) (participant_name : String)
  | SubscribeToSession (session_id : String)
  | AddParticipant (session_id : String) (participant_name : String)
  | RemoveParticipant (session_id : String) (participant_id : String)
  | PointSession (session_id : String) (participant_id : String) (points : Option Nat)
  | SetTopic (topic : String)
  | ClearPoints
  | SessionUpdate (session : Session)
  | ToggleHidePoints
deriving DecidableEq

/-- `messaging.rs` `PubSub`: the notifier map is abstracted to its key
set (the `Notify` handles carry no data), the event map keeps the
single-slot mailbox per session id. -/
structure PubSub where
  notifiers : List String
  events : List (String × SessionMessage)
deriving DecidableEq

/-- `PubSub::new()`. -/
def PubSub.init : PubSub := { notifiers := [], events := [] }

/-- `PubSub::subscribe`: `notifiers.entry(session_id).or_insert_with(..)`
— idempotently registers the wait-handle for the session id. -/
def PubSub.subscribe (ps : PubSub) (sid : String) : PubSub :=
  if sid ∈ ps.notifiers then ps else { ps with notifiers := sid :: ps.notifiers }

/-- `PubSub::publish`: looks up the notifier; when present, overwrites
the mailbox slot and wakes waiters; when absent, does nothing. -/
def PubSub.publish (ps : PubSub) (sid : String) (msg : SessionMessage) : PubSub :=
  if sid ∈ ps.notifiers then { ps with events := ainsert sid msg ps.events } else ps

/-- `PubSub::get_event`: non-destructive read of the mailbox slot
(`&self`, so the state is untouched by construction). -/
def PubSub.get_event (ps : PubSub) (sid : String) : Option SessionMessage :=
  alookup sid ps.events

/-- `PubSub::consume_event`: `events.remove(session_id)` — returns the
removed slot content together with the new state. -/
def PubSub.consume_event (ps : PubSub) (sid : String) : Option SessionMessage × PubSub :=
  (alookup sid ps.events, { ps with events := aremove sid ps.events })

/-- `PubSub::cleanup_session`: removes both the notifier and the mailbox. -/
def PubSub.cleanup_session (ps : PubSub) (sid : String) : PubSub :=
  { notifiers := ps.notifiers.filter (fun k => k ≠ sid),
    events := aremove sid ps.events }

/-- `PubSub::session_count`. -/
def PubSub.session_count (ps : PubSub) : Nat := ps.notifiers.length

/-- `PubSub::has_event`. -/
def PubSub.has_event (ps : PubSub) (sid : String) : Bool := (alookup sid ps.events).isSome

/-- The state-changing PubSub operations, for reasoning about what a
sequence of calls can produce from the initial state. -/
inductive PubSubOp where
  | subscribe (sid : String)
  | publish (sid : String) (msg : SessionMessage)
  | consume (sid : String)
  | cleanup (sid : String)
deriving DecidableEq

/-- Apply one PubSub operation to a state. -/
def PubSub.applyOp (ps : PubSub) : PubSubOp → PubSub
  | PubSubOp.subscribe sid => ps.subscribe sid
  | PubSubOp.publish sid msg => ps.publish sid msg
  | PubSubOp.consume sid => (ps.consume_event sid).2
  | PubSubOp.cleanup sid => ps.cleanup_session sid

/-- Run a call history against a starting PubSub state. -/
def PubSub.runOps (ps : PubSub) (ops : List PubSubOp) : PubSub :=
  ops.foldl PubSub.applyOp ps

/-- A call history in which `subscribe sid` never occurs: no wait-handle
was ever registered for `sid`. -/
def noSubscribeFor (sid : String) (ops : List PubSubOp) : Prop :=
  ∀ op ∈ ops, op ≠ PubSubOp.subscribe sid

instance (sid : String) (ops : List PubSubOp) : Decidable (noSubscribeFor sid ops) := by
  unfold noSubscribeFor
  infer_instance

/-- `sid` is unknown to the PubSub state: no registered wait-handle and
no mailbox entry. -/
def freshFor (sid : String) (ps : PubSub) : Prop :=
  sid ∉ ps.notifiers ∧ alookup sid ps.events = none

/-- The Session Store contents: `DashMap<SessionId, Session>`. -/
abbrev Store := List (String × Session)

/-- `SessionServiceInMemory::get`: snapshot copy or "Session not found". -/
def SessionServiceInMemory.get (store : Store) (sid : String) : Except String Session :=
  match alookup sid store with
  | some s => Except.ok s
  | none => Except.error "Session not found"

/-- `SessionServiceInMemory::update`: `contains_key` check, then
insert-replace; no upsert on a missing id.  Returns the result together
with the (possibly unchanged) store. -/
def SessionServiceInMemory.update (store : Store) (sid : String) (s : Session) :
    Except String Session × Store :=
  if (alookup sid store).isSome then (Except.ok s, ainsert sid s store)
  else (Except.error "Session not found", store)

/-- `SessionServiceInMemory::leave`: `get_mut` (error when the session id
is absent) followed by in-place `remove_participant`. -/
def SessionServiceInMemory.leave (store : Store) (sid : String) (pid : String) :
    Except String Unit × Store :=
  match alookup sid store with
  | some s => (Except.ok (), ainsert sid (s.remove_participant pid) store)
  | none => (Except.error "Session not found", store)

/-- `errors.rs` `WebSocketError`. -/
inductive WebSocketError where
  | SessionNotFound (sid : String)
  | InvalidMessage (detail : String)
  | AlreadySubscribed
  | SerializationFailed (detail : String)
  | SendFailed
  | ChannelClosed
  | NotSubscribed
deriving DecidableEq

/-- `websocket.rs` `WebSocketResponse`. -/
inductive WebSocketResponse where
  | Success (msg : String)
  | SubscriptionStarted
  | None
deriving DecidableEq

/-- `websocket.rs` `ConnectionState`: the bound session id, the bound
participant id, and whether a Listener Task is running
(`task_handle.is_some()`; the outbound channel lives and dies with the
task and is folded into the same flag). -/
structure ConnectionState where
  session_id : Option String
  participant_id : Option String
  has_task : Bool
deriving DecidableEq

/-- `ConnectionState::new()`. -/
def ConnectionState.new : ConnectionState :=
  { session_id := none, participant_id := none, has_task := false }

/-- `ConnectionState::is_subscribed`. -/
def ConnectionState.is_subscribed (c : ConnectionState) : Bool := c.has_task

/-- The shared application state handed to every handler: the Session
Store and the PubSub hub. -/
structure AppState where
  sessions : Store
  pub_sub : PubSub
deriving DecidableEq

/-- `websocket.rs` `setup_subscription`: rejects when already
subscribed, checks the session exists, binds the session id, registers
with the hub, and spawns the Listener Task. -/
def setup_subscription (sid : String) (app : AppState) (conn : ConnectionState) :
    Except WebSocketError Unit × AppState × ConnectionState :=
  if conn.is_subscribed then (Except.error WebSocketError.AlreadySubscribed, app, conn)
  else
    match SessionServiceInMemory.get app.sessions sid with
    | Except.error _ => (Except.error (WebSocketError.SessionNotFound sid), app, conn)
    | Except.ok _ =>
      (Except.ok (),
       { app with pub_sub := app.pub_sub.subscribe sid },
       { conn with session_id := some sid, has_task := true })

/-- `websocket.rs` `handle_join_session`: fetches the session, adds a
freshly-identified participant (`new_pid` stands for the generated
`ParticipantId::new()`), records the participant id on the connection,
writes the session back and publishes the update.  It performs no
subscription setup. -/
def handle_join_session (session_id : String) (participant_name : String) (new_pid : String)
    (app : AppState) (conn : ConnectionState) :
    Except WebSocketError WebSocketResponse × AppState × ConnectionState :=
  match SessionServiceInMemory.get app.sessions session_id with
  | Except.error _ => (Except.error (WebSocketError.SessionNotFound session_id), app, conn)
  | Except.ok s =>
    let s1 := s.add_participant { id := new_pid, name := participant_name }
    let conn1 := { conn with participant_id := some new_pid }
    match SessionServiceInMemory.update app.sessions session_id s1 with
    | (Except.error _, store1) =>
      (Except.error (WebSocketError.InvalidMessage "Failed to update session"),
       { app with sessions := store1 }, conn1)
    | (Except.ok _, store1) =>
      (Except.ok WebSocketResponse.None,
       { sessions := store1,
         pub_sub := app.pub_sub.publish session_id (SessionMessage.SessionUpdate s1) },
       conn1)

/-- `websocket.rs` `handle_subscribe_to_session`. -/
def handle_subscribe_to_session (session_id : String) (app : AppState) (conn : ConnectionState) :
    Except WebSocketError WebSocketResponse × AppState × ConnectionState :=
  match setup_subscription session_id app conn with
  | (Except.error e, app1, conn1) => (Except.error e, app1, conn1)
  | (Except.ok _, app1, conn1) => (Except.ok WebSocketResponse.SubscriptionStarted, app1, conn1)

/-- `websocket.rs` `handle_point_session`: fetch, `Session::point`,
write back, publish; the connection state is passed but untouched. -/
def handle_point_session (session_id : String) (participant_id : String) (points : Option Nat)
    (app : AppState) (conn : ConnectionState) :
    Except WebSocketError WebSocketResponse × AppState × ConnectionState :=
  match SessionServiceInMemory.get app.sessions session_id with
  | Except.error _ => (Except.error (WebSocketError.SessionNotFound session_id), app, conn)
  | Except.ok s =>
    let s1 := s.point participant_id points
    match SessionServiceInMemory.update app.sessions session_id s1 with
    | (Except.error _, store1) =>
      (Except.error (WebSocketError.InvalidMessage "Failed to update session"),
       { app with sessions := store1 }, conn)
    | (Except.ok _, store1) =>
      (Except.ok WebSocketResponse.None,
       { sessions := store1,
         pub_sub := app.pub_sub.publish session_id (SessionMessage.SessionUpdate s1) },
       conn)

/-- `websocket.rs` `handle_set_topic`: requires a bound session id
(`NotSubscribed` otherwise), then fetch, mutate, write back, publish. -/
def handle_set_topic (topic : String) (app : AppState) (conn : ConnectionState) :
    Except WebSocketError WebSocketResponse × AppState × ConnectionState :=
  match conn.session_id with
  | none => (Except.error WebSocketError.NotSubscribed, app, conn)
  | some sid =>
    match SessionServiceInMemory.get app.sessions sid with
    | Except.error _ => (Except.error (WebSocketError.SessionNotFound sid), app, conn)
    | Except.ok s =>
      let s1 := s.set_topic topic
      match SessionServiceInMemory.update app.sessions sid s1 with
      | (Except.error _, store1) =>
        (Except.error (WebSocketError.InvalidMessage "Failed to update session"),
         { app with sessions := store1 }, conn)
      | (Except.ok _, store1) =>
        (Except.ok WebSocketResponse.None,
         { sessions := store1,
           pub_sub := app.pub_sub.publish sid (SessionMessage.SessionUpdate s1) },
         conn)

/-- `websocket.rs` `handle_clear_points`: same shape as `handle_set_topic`
with `Session::clear_points` as the mutation. -/
def handle_clear_points (app : AppState) (conn : ConnectionState) :
    Except WebSocketError WebSocketResponse × AppState × ConnectionState :=
  match conn.session_id with
  | none => (Except.error WebSocketError.NotSubscribed, app, conn)
  | some sid =>
    match SessionServiceInMemory.get app.sessions sid with
    | Except.error _ => (Except.error (WebSocketError.SessionNotFound sid), app, conn)
    | Except.ok s =>
      let s1 := s.clear_points
      match SessionServiceInMemory.update app.sessions sid s1 with
      | (Except.error _, store1) =>
        (Except.error (WebSocketError.InvalidMessage "Failed to update session"),
         { app with sessions := store1 }, conn)
      | (Except.ok _, store1) =>
        (Except.ok WebSocketResponse.None,
         { sessions := store1,
           pub_sub := app.pub_sub.publish sid (SessionMessage.SessionUpdate s1) },
         conn)

/-- `websocket.rs` `handle_toggle_hide_points`: same shape with
`Session::toggle_hide_points` as the mutation. -/
def handle_toggle_hide_points (app : AppState) (conn : ConnectionState) :
    Except WebSocketError WebSocketResponse × AppState × ConnectionState :=
  match conn.session_id with
  | none => (Except.error WebSocketError.NotSubscribed, app, conn)
  | some sid =>
    match SessionServiceInMemory.get app.sessions sid with
    | Except.error _ => (Except.error (WebSocketError.SessionNotFound sid), app, conn)
    | Except.ok s =>
      let s1 := s.toggle_hide_points
      match SessionServiceInMemory.update app.sessions sid s1 with
      | (Except.error _, store1) =>
        (Except.error (WebSocketError.InvalidMessage "Failed to update session"),
         { app with sessions := store1 }, conn)
      | (Except.ok _, store1) =>
        (Except.ok WebSocketResponse.None,
         { sessions := store1,
           pub_sub := app.pub_sub.publish sid (SessionMessage.SessionUpdate s1) },
         conn)

/-- A concrete session: one member `p1` named Alice who has voted 3. -/
def sessVoted : Session :=
  { id := "S1", name := "Sprint 1", started := 0, duration := 1800,
    members := [{ id := "p1", name := "Alice" }],
    current_topic := "", current_points := [("p1", some 3)], hide_points := false }

/-- A concrete freshly-created session: no members, no votes. -/
def sessFresh : Session :=
  { id := "S1", name := "Sprint 1", started := 0, duration := 1800,
    members := [], current_topic := "", current_points := [], hide_points := false }

/-- A concrete store holding `sessVoted` under its id. -/
def storeVoted : Store := [("S1", sessVoted)]

/-- A concrete application state over `storeVoted` with an empty hub. -/
def appVoted : AppState := { sessions := storeVoted, pub_sub := PubSub.init }

/-- A concrete application state holding only the fresh session. -/
def appFresh : AppState := { sessions := [("S1", sessFresh)], pub_sub := PubSub.init }

/-- A concrete connection subscribed to `S1` with no participant identity. -/
def connSubscribed : ConnectionState :=
  { session_id := some "S1", participant_id := none, has_task := true }

/-- A concrete PubSub state with a pending event for `S1`. -/
def psPending : PubSub :=
  { notifiers := ["S1"], events := [("S1", SessionMessage.ClearPoints)] }

/-- A concrete PubSub call history that never subscribes `S2`. -/
def opsOther : List PubSubOp :=
  [PubSubOp.subscribe "S1", PubSubOp.publish "S1" SessionMessage.ClearPoints]

theorem alookup_aremove_self {α : Type} (k : String) (m : List (String × α)) :
    alookup k (aremove k m) = none := by
  induction m with
  | nil => rfl
  | cons kv rest ih =>
    obtain ⟨k1, v⟩ := kv
    by_cases h : k1 = k
    · simpa [aremove, h] using ih
    · simpa [aremove, alookup, h] using ih

theorem alookup_aremove_ne {α : Type} (k j : String) (m : List (String × α)) (h : k ≠ j) :
    alookup k (aremove j m) = alookup k m := by
  induction m with
  | nil => rfl
  | cons kv rest ih =>
    obtain ⟨k1, v⟩ := kv
    by_cases h1 : k1 = j
    · subst h1
      have h2 : ¬ k1 = k := fun e => h e.symm
      simpa [aremove, alookup, h2] using ih
    · by_cases h2 : k1 = k
      · simp [aremove, alookup, h1, h2, h]
      · simpa [aremove, alookup, h1, h2] using ih

theorem alookup_ainsert_self {α : Type} (k : String) (v : α) (m : List (String × α)) :
    alookup k (ainsert k v m) = some v := by
  simp [ainsert, alookup]

theorem alookup_ainsert_ne {α : Type} (k j : String) (v : α) (m : List (String × α))
    (h : k ≠ j) :
    alookup k (ainsert j v m) = alookup k m := by
  have h1 : ¬ j = k := fun e => h e.symm
  simp only [ainsert, alookup, h1, if_false]
  exact alookup_aremove_ne k j m h

theorem aremove_aremove_self {α : Type} (k : String) (m : List (String × α)) :
    aremove k (aremove k m) = aremove k m := by
  induction m with
  | nil => rfl
  | cons kv rest ih =>
    obtain ⟨k1, v⟩ := kv
    by_cases h : k1 = k
    · simpa [aremove, h] using ih
    · simp [aremove, h, ih]

theorem ainsert_ainsert_self {α : Type} (k : String) (v : α) (m : List (String × α)) :
    ainsert k v (ainsert k v m) = ainsert k v m := by
  simp [ainsert, aremove, aremove_aremove_self]

theorem alookup_ne_none_of_mem_keys {α : Type} {k : String} {m : List (String × α)}
    (h : k ∈ m.map Prod.fst) : alookup k m ≠ none := by
  induction m with
  | nil => simp at h
  | cons kv rest ih =>
    obtain ⟨k1, v⟩ := kv
    by_cases h1 : k1 = k
    · simp [alookup, h1]
    · have h2 : k ∈ rest.map Prod.fst := by
        rcases List.mem_cons.mp h with h3 | h3
        · exact absurd h3.symm (by simpa using h1)
        · exact h3
      simpa [alookup, h1] using ih h2

theorem mem_keys_of_mem_keys_aremove {α : Type} {j k : String} {m : List (String × α)}
    (h : j ∈ (aremove k m).map Prod.fst) : j ∈ m.map Prod.fst := by
  induction m with
  | nil => simp [aremove] at h
  | cons kv rest ih =>
    obtain ⟨k1, v⟩ := kv
    by_cases h1 : k1 = k
    · rw [show aremove k ((k1, v) :: rest) = aremove k rest by simp [aremove, h1]] at h
      simp only [List.map_cons, List.mem_cons]
      exact Or.inr (ih h)
    · rw [show aremove k ((k1, v) :: rest) = (k1, v) :: aremove k rest by
        simp [aremove, h1]] at h
      simp only [List.map_cons, List.mem_cons] at h ⊢
      rcases h with h | h
      · exact Or.inl h
      · exact Or.inr (ih h)

theorem mem_keys_ainsert {α : Type} {j k : String} {v : α} {m : List (String × α)}
    (h : j ∈ (ainsert k v m).map Prod.fst) : j = k ∨ j ∈ m.map Prod.fst := by
  simp only [ainsert, List.map_cons, List.mem_cons] at h
  rcases h with h | h
  · exact Or.inl h
  · exact Or.inr (mem_keys_of_mem_keys_aremove h)

theorem remove_participant_absent (s : Session) (pid : String)
    (hp : pid ∉ s.members.map Participant.id) : s.remove_participant pid = s := by
  have hid : ∀ p ∈ s.members, p.id ≠ pid := by
    intro p hpmem e
    exact hp (List.mem_map.mpr ⟨p, hpmem, e⟩)
  have hmem : s.members.filter (fun p => p.id ≠ pid) = s.members :=
    List.filter_eq_self.mpr (fun p hpmem => by simp [hid p hpmem])
  simp only [Session.remove_participant]
  rw [hmem]

theorem point_not_member (s : Session) (pid : String) (pts : Option Nat)
    (hp : pid ∉ s.members.map Participant.id) : s.point pid pts = s := by
  have h : ¬ ∃ p ∈ s.members, p.id = pid := by
    rintro ⟨p, hpmem, e⟩
    exact hp (List.mem_map.mpr ⟨p, hpmem, e⟩)
  simp [Session.point, h]

theorem freshFor_applyOp (sid : String) (ps : PubSub) (op : PubSubOp)
    (hop : op ≠ PubSubOp.subscribe sid) (h : freshFor sid ps) :
    freshFor sid (ps.applyOp op) := by
  obtain ⟨hn, he⟩ := h
  cases op with
  | subscribe j =>
    have hj : sid ≠ j := fun e => hop (by rw [e])
    constructor
    · simp only [PubSub.applyOp, PubSub.subscribe]
      split
      · exact hn
      · simp only [List.mem_cons]
        rintro (e | hm)
        · exact hj e
        · exact hn hm
    · simp only [PubSub.applyOp, PubSub.subscribe]
      split
      · exact he
      · exact he
  | publish j msg =>
    by_cases hmem : j ∈ ps.notifiers
    · have hj : sid ≠ j := fun e => hn (e ▸ hmem)
      refine ⟨by simpa [PubSub.applyOp, PubSub.publish, hmem] using hn, ?_⟩
      simp only [PubSub.applyOp, PubSub.publish, if_pos hmem]
      rw [alookup_ainsert_ne sid j msg ps.events hj]
      exact he
    · exact ⟨by simpa [PubSub.applyOp, PubSub.publish, hmem] using hn,
        by simpa [PubSub.applyOp, PubSub.publish, hmem] using he⟩
  | consume j =>
    refine ⟨hn, ?_⟩
    by_cases hj : sid = j
    · subst hj
      simp [PubSub.applyOp, PubSub.consume_event, alookup_aremove_self]
    · simp only [PubSub.applyOp, PubSub.consume_event]
      rw [alookup_aremove_ne sid j ps.events hj]
      exact he
  | cleanup j =>
    constructor
    · simp only [PubSub.applyOp, PubSub.cleanup_session]
      intro hmem
      exact hn (List.mem_of_mem_filter hmem)
    · by_cases hj : sid = j
      · subst hj
        simp [PubSub.applyOp, PubSub.cleanup_session, alookup_aremove_self]
      · simp only [PubSub.applyOp, PubSub.cleanup_session]
        rw [alookup_aremove_ne sid j ps.events hj]
        exact he

theorem freshFor_runOps (sid : String) (ops : List PubSubOp) :
    ∀ ps : PubSub, (∀ op ∈ ops, op ≠ PubSubOp.subscribe sid) → freshFor sid ps →
      freshFor sid (ps.runOps ops) := by
  induction ops with
  | nil =>
    intro ps _ h
    exact h
  | cons op rest ih =>
    intro ps hops h
    have h1 : freshFor sid (ps.applyOp op) :=
      freshFor_applyOp sid ps op (hops op (List.mem_cons_self op rest)) h
    exact ih (ps.applyOp op) (fun o ho => hops o (List.mem_cons_of_mem op ho)) h1

/-- C1 counterexample: a session whose only member has voted satisfies the
point-map invariant, but removing that member keeps the stale point entry,
so `remove_participant` does not preserve the invariant. -/
theorem remove_participant_breaks_points_invariant :
    pointsOk sessVoted ∧ ¬ pointsOk (sessVoted.remove_participant "p1") := by
  decide

/-- C1 (amended): the invariant "every point-map key is a current member's
id" is preserved by add_participant, set_topic, clear_points,
toggle_hide_points and point — and point with an unknown participant id
leaves the point map unchanged — while remove_participant preserves it
only when the removed id has no point entry. -/
theorem points_invariant_preserved (s : Session) (p : Participant) (topic pid : String)
    (pts : Option Nat) (h : pointsOk s) :
    pointsOk (s.add_participant p) ∧
    pointsOk (s.set_topic topic) ∧
    pointsOk s.clear_points ∧
    pointsOk s.toggle_hide_points ∧
    pointsOk (s.point pid pts) ∧
    (pid ∉ s.members.map Participant.id → s.point pid pts = s) ∧
    (alookup pid s.current_points = none → pointsOk (s.remove_participant pid)) := by
  refine ⟨?_, ?_, ?_, ?_, ?_, ?_, ?_⟩
  · intro k hk
    obtain ⟨q, hq, hqid⟩ := h k hk
    exact ⟨q, List.mem_append_left _ hq, hqid⟩
  · exact h
  · intro k hk
    simp [Session.clear_points] at hk
  · exact h
  · by_cases hmem : ∃ q ∈ s.members, q.id = pid
    · simp only [Session.point, if_pos hmem]
      intro k hk
      rcases mem_keys_ainsert hk with rfl | hk2
      · obtain ⟨q, hq, hqid⟩ := hmem
        exact ⟨q, hq, hqid⟩
      · exact h k hk2
    · simp only [Session.point, if_neg hmem]
      exact h
  · exact fun hp => point_not_member s pid pts hp
  · intro hnone k hk
    have hk2 : k ∈ s.current_points.map Prod.fst := hk
    have hkpid : k ≠ pid := by
      intro e
      exact alookup_ne_none_of_mem_keys (e ▸ hk2) hnone
    obtain ⟨q, hq, hqid⟩ := h k hk2
    refine ⟨q, ?_, hqid⟩
    show q ∈ s.members.filter (fun p => p.id ≠ pid)
    refine List.mem_filter.mpr ⟨hq, ?_⟩
    simp [hqid, hkpid]

/-- Witness for the amended C1 theorem at a concrete voted session. -/
theorem points_invariant_preserved_witness :
    pointsOk sessVoted ∧ pointsOk (sessVoted.point "p1" (some 5)) :=
  ⟨by decide,
   (points_invariant_preserved sessVoted { id := "p2", name := "Bob" } "t" "p1" (some 5)
     (by decide)).2.2.2.2.1⟩

/-- C2: evaluating handle_join_session at a concrete Unbound connection and
an existing session — the participant is added to the stored session,
recorded in the connection state, and the update is published, but the
connection is left with no bound session id and no Listener Task: the
Subscribe sequence never runs, so the connection does not end Subscribed. -/
theorem join_session_leaves_connection_unsubscribed :
    (handle_join_session "S1" "Alice" "p7" appFresh ConnectionState.new).1
        = Except.ok WebSocketResponse.None ∧
    (handle_join_session "S1" "Alice" "p7" appFresh ConnectionState.new).2.2.participant_id
        = some "p7" ∧
    (handle_join_session "S1" "Alice" "p7" appFresh ConnectionState.new).2.2.session_id
        = none ∧
    (handle_join_session "S1" "Alice" "p7" appFresh ConnectionState.new).2.2.has_task
        = false ∧
    alookup "S1" (handle_join_session "S1" "Alice" "p7" appFresh ConnectionState.new).2.1.sessions
        = some (sessFresh.add_participant { id := "p7", name := "Alice" }) :=
  ⟨rfl, rfl, rfl, rfl, rfl⟩

/-- C3: when subscribe was never called for a session id, publish for that
id is a no-op on the whole PubSub state, and a subsequent subscribe
followed by get_event observes nothing published before the subscribe. -/
theorem publish_without_subscriber_is_noop (ops : List PubSubOp) (sid : String)
    (e : SessionMessage) (h : noSubscribeFor sid ops) :
    (PubSub.init.runOps ops).publish sid e = PubSub.init.runOps ops ∧
    (((PubSub.init.runOps ops).publish sid e).subscribe sid).get_event sid = none := by
  have hf : freshFor sid (PubSub.init.runOps ops) :=
    freshFor_runOps sid ops PubSub.init h ⟨by simp [PubSub.init], rfl⟩
  have hpub : (PubSub.init.runOps ops).publish sid e = PubSub.init.runOps ops := by
    simp [PubSub.publish, hf.1]
  refine ⟨hpub, ?_⟩
  rw [hpub]
  simp only [PubSub.subscribe, PubSub.get_event]
  split
  · exact hf.2
  · exact hf.2

/-- Witness for C3: a history that subscribes and publishes only `S1`
never registers `S2`, so publishing to `S2` changes nothing. -/
theorem publish_without_subscriber_is_noop_witness :
    noSubscribeFor "S2" opsOther ∧
    (PubSub.init.runOps opsOther).publish "S2" SessionMessage.ClearPoints
      = PubSub.init.runOps opsOther :=
  ⟨by decide,
   (publish_without_subscriber_is_noop opsOther "S2" SessionMessage.ClearPoints (by decide)).1⟩

/-- C4: with a pending event, consume_event returns it and removes the
mailbox entry (a second consume returns none), while get_event is
non-destructive: it returns the same event and touches no state. -/
theorem consume_destructive_get_nondestructive (ps : PubSub) (sid : String)
    (e : SessionMessage) (h : ps.get_event sid = some e) :
    (ps.consume_event sid).1 = some e ∧
    ((ps.consume_event sid).2.consume_event sid).1 = none ∧
    (ps.consume_event sid).2.get_event sid = none ∧
    (ps.consume_event sid).2.notifiers = ps.notifiers ∧
    ps.get_event sid = some e := by
  refine ⟨h, ?_, ?_, rfl, h⟩
  · show alookup sid (aremove sid ps.events) = none
    exact alookup_aremove_self sid ps.events
  · show alookup sid (aremove sid ps.events) = none
    exact alookup_aremove_self sid ps.events

/-- Witness for C4 at a concrete pending event. -/
theorem consume_destructive_get_nondestructive_witness :
    psPending.get_event "S1" = some SessionMessage.ClearPoints ∧
    (psPending.consume_event "S1").1 = some SessionMessage.ClearPoints :=
  ⟨by decide,
   (consume_destructive_get_nondestructive psPending "S1" SessionMessage.ClearPoints
     (by decide)).1⟩

/-- C5: update on an absent session id fails with the not-found error and
leaves the store unchanged (no upsert); on a present id it replaces the
stored value, returns the new value, and leaves every other session's
binding unchanged. -/
theorem update_contract (store : Store) (sid : String) (snew : Session) :
    (alookup sid store = none →
      SessionServiceInMemory.update store sid snew
        = (Except.error "Session not found", store)) ∧
    ∀ s0, alookup sid store = some s0 →
      (SessionServiceInMemory.update store sid snew).1 = Except.ok snew ∧
      alookup sid (SessionServiceInMemory.update store sid snew).2 = some snew ∧
      ∀ k, k ≠ sid →
        alookup k (SessionServiceInMemory.update store sid snew).2 = alookup k store := by
  constructor
  · intro hnone
    simp [SessionServiceInMemory.update, hnone]
  · intro s0 hsome
    have hs : (alookup sid store).isSome := by simp [hsome]
    refine ⟨?_, ?_, ?_⟩
    · simp [SessionServiceInMemory.update, hs]
    · simp [SessionServiceInMemory.update, hs, alookup_ainsert_self]
    · intro k hk
      simp only [SessionServiceInMemory.update, if_pos hs]
      exact alookup_ainsert_ne k sid snew store hk

/-- Witness for C5: both branches at concrete stores. -/
theorem update_contract_witness :
    (SessionServiceInMemory.update [] "S1" sessFresh
      = (Except.error "Session not found", [])) ∧
    alookup "S1" storeVoted = some sessVoted ∧
    (SessionServiceInMemory.update storeVoted "S1" sessFresh).1 = Except.ok sessFresh :=
  ⟨(update_contract [] "S1" sessFresh).1 rfl, by decide,
   ((update_contract storeVoted "S1" sessFresh).2 sessVoted (by decide)).1⟩

/-- C6: handling ToggleHidePoints twice on a connection bound to a stored
session stores a session whose hide_points flag equals the original. -/
theorem toggle_hide_points_twice (app : AppState) (conn : ConnectionState) (sid : String)
    (s : Session) (hconn : conn.session_id = some sid)
    (hs : alookup sid app.sessions = some s) :
    alookup sid ((handle_toggle_hide_points
        (handle_toggle_hide_points app conn).2.1
        (handle_toggle_hide_points app conn).2.2).2.1).sessions
      = some (s.toggle_hide_points.toggle_hide_points) ∧
    (s.toggle_hide_points.toggle_hide_points).hide_points = s.hide_points := by
  have h1 : handle_toggle_hide_points app conn =
      (Except.ok WebSocketResponse.None,
       { sessions := ainsert sid s.toggle_hide_points app.sessions,
         pub_sub := app.pub_sub.publish sid
           (SessionMessage.SessionUpdate s.toggle_hide_points) },
       conn) := by
    simp [handle_toggle_hide_points, hconn, SessionServiceInMemory.get,
      SessionServiceInMemory.update, hs]
  constructor
  · rw [h1]
    have h2 : alookup sid (ainsert sid s.toggle_hide_points app.sessions)
        = some s.toggle_hide_points := alookup_ainsert_self sid _ app.sessions
    simp [handle_toggle_hide_points, hconn, SessionServiceInMemory.get,
      SessionServiceInMemory.update, h2, alookup_ainsert_self]
  · simp [Session.toggle_hide_points, Bool.not_not]

/-- Witness for C6 at the concrete voted session and subscribed connection. -/
theorem toggle_hide_points_twice_witness :
    alookup "S1" appVoted.sessions = some sessVoted ∧
    (sessVoted.toggle_hide_points.toggle_hide_points).hide_points = sessVoted.hide_points :=
  ⟨by decide,
   (toggle_hide_points_twice appVoted connSubscribed "S1" sessVoted (by decide) (by decide)).2⟩

/-- C7: handling ClearPoints on a bound connection succeeds, stores exactly
the cleared session and publishes it; the cleared session has an empty
point map while every other field (id, name, started, duration, members,
current topic, hide_points) is unchanged. -/
theorem clear_points_contract (app : AppState) (conn : ConnectionState) (sid : String)
    (s : Session) (hconn : conn.session_id = some sid)
    (hs : alookup sid app.sessions = some s) :
    (handle_clear_points app conn).1 = Except.ok WebSocketResponse.None ∧
    alookup sid (handle_clear_points app conn).2.1.sessions = some s.clear_points ∧
    (handle_clear_points app conn).2.1.pub_sub
      = app.pub_sub.publish sid (SessionMessage.SessionUpdate s.clear_points) ∧
    s.clear_points.current_points = [] ∧
    s.clear_points.hide_points = s.hide_points ∧
    s.clear_points.id = s.id ∧
    s.clear_points.name = s.name ∧
    s.clear_points.started = s.started ∧
    s.clear_points.duration = s.duration ∧
    s.clear_points.members = s.members ∧
    s.clear_points.current_topic = s.current_topic := by
  have h1 : handle_clear_points app conn =
      (Except.ok WebSocketResponse.None,
       { sessions := ainsert sid s.clear_points app.sessions,
         pub_sub := app.pub_sub.publish sid (SessionMessage.SessionUpdate s.clear_points) },
       conn) := by
    simp [handle_clear_points, hconn, SessionServiceInMemory.get,
      SessionServiceInMemory.update, hs]
  rw [h1]
  exact ⟨rfl, alookup_ainsert_self sid _ app.sessions, rfl, rfl, rfl, rfl, rfl, rfl, rfl,
    rfl, rfl⟩

/-- Witness for C7 at the concrete voted session. -/
theorem clear_points_contract_witness :
    (handle_clear_points appVoted connSubscribed).1 = Except.ok WebSocketResponse.None ∧
    sessVoted.clear_points.current_points = [] :=
  ⟨(clear_points_contract appVoted connSubscribed "S1" sessVoted (by decide) (by decide)).1,
   (clear_points_contract appVoted connSubscribed "S1" sessVoted (by decide)
     (by decide)).2.2.2.1⟩

/-- C8: leave with a participant id absent from the session succeeds,
keeps the stored session (so the participant list's length and contents)
unchanged, and applying leave twice yields the same result and store as
applying it once. -/
theorem leave_absent_participant (store : Store) (sid pid : String) (s : Session)
    (hs : alookup sid store = some s)
    (hp : pid ∉ s.members.map Participant.id) :
    (SessionServiceInMemory.leave store sid pid).1 = Except.ok () ∧
    alookup sid (SessionServiceInMemory.leave store sid pid).2 = some s ∧
    SessionServiceInMemory.leave (SessionServiceInMemory.leave store sid pid).2 sid pid
      = SessionServiceInMemory.leave store sid pid := by
  have hrm : s.remove_participant pid = s := remove_participant_absent s pid hp
  have h1 : SessionServiceInMemory.leave store sid pid
      = (Except.ok (), ainsert sid s store) := by
    simp [SessionServiceInMemory.leave, hs, hrm]
  rw [h1]
  refine ⟨rfl, alookup_ainsert_self sid s store, ?_⟩
  have h2 : alookup sid (ainsert sid s store) = some s := alookup_ainsert_self sid s store
  simp [SessionServiceInMemory.leave, h2, hrm, ainsert_ainsert_self]

/-- Witness for C8: removing the never-added id `zz` from the stored
session succeeds. -/
theorem leave_absent_participant_witness :
    alookup "S1" storeVoted = some sessVoted ∧
    (SessionServiceInMemory.leave storeVoted "S1" "zz").1 = Except.ok () :=
  ⟨by decide,
   (leave_absent_participant storeVoted "S1" "zz" sessVoted (by decide) (by decide)).1⟩

/-- C9: SetTopic on a connection with no bound session id yields the
NotSubscribed error for that connection only, with the Session Store, the
PubSub hub and the connection state all untouched — no SessionUpdate is
published. -/
theorem set_topic_unbound (topic : String) (app : AppState) (conn : ConnectionState)
    (h : conn.session_id = none) :
    handle_set_topic topic app conn = (Except.error WebSocketError.NotSubscribed, app, conn) := by
  simp [handle_set_topic, h]

/-- Witness for C9 at a fresh connection. -/
theorem set_topic_unbound_witness :
    handle_set_topic "x" appVoted ConnectionState.new
      = (Except.error WebSocketError.NotSubscribed, appVoted, ConnectionState.new) :=
  set_topic_unbound "x" appVoted ConnectionState.new rfl

/-- C10: PointSession with an unknown participant id reports no error:
Session.point leaves the session unchanged, yet the handler still writes
the unchanged session back to the store and publishes a SessionUpdate of
it to the hub, with the connection state untouched. -/
theorem point_unknown_participant_broadcasts_unchanged (sid pid : String) (pts : Option Nat)
    (app : AppState) (conn : ConnectionState) (s : Session)
    (hs : alookup sid app.sessions = some s)
    (hp : pid ∉ s.members.map Participant.id) :
    s.point pid pts = s ∧
    (handle_point_session sid pid pts app conn).1 = Except.ok WebSocketResponse.None ∧
    (handle_point_session sid pid pts app conn).2.1.sessions = ainsert sid s app.sessions ∧
    (handle_point_session sid pid pts app conn).2.1.pub_sub
      = app.pub_sub.publish sid (SessionMessage.SessionUpdate s) ∧
    (handle_point_session sid pid pts app conn).2.2 = conn := by
  have hpt : s.point pid pts = s := point_not_member s pid pts hp
  have h1 : handle_point_session sid pid pts app conn =
      (Except.ok WebSocketResponse.None,
       { sessions := ainsert sid s app.sessions,
         pub_sub := app.pub_sub.publish sid (SessionMessage.SessionUpdate s) },
       conn) := by
    simp [handle_point_session, SessionServiceInMemory.get, hs,
      SessionServiceInMemory.update, hpt]
  rw [h1]
  exact ⟨hpt, rfl, rfl, rfl, rfl⟩

/-- Witness for C10: pointing with the unknown id `zz` succeeds without
error. -/
theorem point_unknown_participant_witness :
    alookup "S1" appVoted.sessions = some sessVoted ∧
    (handle_point_session "S1" "zz" (some 5) appVoted ConnectionState.new).1
      = Except.ok WebSocketResponse.None :=
  ⟨by decide,
   (point_unknown_participant_broadcasts_unchanged "S1" "zz" (some 5) appVoted
     ConnectionState.new sessVoted (by decide) (by decide)).2.1⟩

end Kiko
